import Mathlib

/-!
Verification of the episode/show statistics and reconciliation core of the
cinetime backend (`src/models/Episode.ts`, `src/models/Media.ts`).

The document store is modelled as two lists (episode records and media
records).  Mongoose queries become list filters, `findOne` becomes
`List.find?`, `deleteMany` becomes a filter, and the aggregation pipeline
grouping by `(addedBy, tmdbId)` becomes deduplication of the key list.
Machine numbers are `Nat`/`Int` (season/episode numbers are `Int` because the
validation hook must observe negative inputs).  Timestamps are `Nat`.
Fallible operations return `Except String`.
-/

namespace Cinetime

/-- Watch state of an episode record (`episodeSchema.watchStatus` enum). -/
inductive WatchStatus where
  | unwatched
  | watched
  | skipped
deriving DecidableEq, Repr

/-- Watch status of a media record (`mediaSchema.watchStatus` enum:
`"planned" | "watching" | "completed"`). -/
inductive MediaStatus where
  | planned
  | watching
  | completed
deriving DecidableEq, Repr

/-- Media kind (`mediaSchema.type` enum: `"movie" | "tv"`). -/
inductive MediaType where
  | movie
  | tv
deriving DecidableEq, Repr

/-- An episode record, after `episodeSchema` (Episode.ts lines 33-57).
`runtime` is a `Nat` where `0` stands for the JS-falsy values
(`0`/`null`/`undefined`) that `ep.runtime || 45` replaces by 45; the schema
default is 45.  `watchedAt` is `none` when the Mongo field is unset. -/
structure Episode where
  tmdbId : Nat
  seasonNumber : Int
  episodeNumber : Int
  episodeTitle : String
  airDate : Option String
  overview : Option String
  runtime : Nat
  addedBy : Nat
  watchStatus : WatchStatus
  watchedAt : Option Nat
  rating : Option Nat
deriving DecidableEq, Repr

/-- A media record, after `mediaSchema` (Media.ts lines 18-35).  Note the
schema's only numeric aggregate field is `watchTimeMinutes` (default 0);
there is no `totalEpisodesWatched` and no `totalWatchTime` path in the
schema, so (Mongoose strict mode, the default) assignments to those paths on
a hydrated document are not persisted by `save()`. -/
structure Media where
  tmdbId : Nat
  title : String
  type : MediaType
  addedBy : Nat
  watchStatus : MediaStatus
  rating : Option Nat
  watchTimeMinutes : Nat
deriving DecidableEq, Repr

/-- The persistent state: the `episodes` and `media` collections. -/
structure Store where
  episodes : List Episode
  media : List Media
deriving DecidableEq, Repr

/-- Grouping key of the `$group` aggregation stage: `(addedBy, tmdbId)`. -/
def epKey (e : Episode) : Nat × Nat := (e.addedBy, e.tmdbId)

/-- `Media.exists({ addedBy, tmdbId, type: "tv" })` as a Boolean on a media
record. -/
def isTVFor (m : Media) (userId tmdbId : Nat) : Bool :=
  m.addedBy == userId && m.tmdbId == tmdbId && m.type == MediaType.tv

/-- `Media.exists({ addedBy, tmdbId, type: "tv" })` over the collection. -/
def tvExists (ms : List Media) (k : Nat × Nat) : Bool :=
  ms.any (fun m => isTVFor m k.1 k.2)

/-- `Episode.find({ addedBy: userId, tmdbId })` (Episode.ts lines 246-249). -/
def episodesFor (es : List Episode) (userId tmdbId : Nat) : List Episode :=
  es.filter (fun e => e.addedBy == userId && e.tmdbId == tmdbId)

/-- `ep.runtime || 45` (Episode.ts line 262): JS `||` falls back to 45 on the
falsy value 0 (which also encodes null/undefined here). -/
def runtimeOr45 (r : Nat) : Nat :=
  if r == 0 then 45 else r

/-! ### Instance methods (Episode.ts lines 165-181) -/

/-- `markAsWatched`: set `watchStatus` to watched and `watchedAt` to now. -/
def markAsWatched (e : Episode) (now : Nat) : Episode :=
  { e with watchStatus := .watched, watchedAt := some now }

/-- `markAsUnwatched`: set `watchStatus` to unwatched, clear `watchedAt`. -/
def markAsUnwatched (e : Episode) : Episode :=
  { e with watchStatus := .unwatched, watchedAt := none }

/-- `markAsSkipped`: set `watchStatus` to skipped, clear `watchedAt`. -/
def markAsSkipped (e : Episode) : Episode :=
  { e with watchStatus := .skipped, watchedAt := none }

/-! ### Pre-save validation/normalization hook (Episode.ts lines 204-226) -/

/-- `episodeSchema.pre("save")`: reject `episodeNumber < 1` and
`seasonNumber < 0` (a thrown error aborts the save, so nothing is written);
then set `watchedAt` when watched and missing (`!this.watchedAt` is the JS
falsy test, i.e. the field is unset), and clear it when not watched. -/
def episodePreSave (e : Episode) (now : Nat) : Except String Episode :=
  if e.episodeNumber < 1 then
    .error "Episode number must be at least 1"
  else if e.seasonNumber < 0 then
    .error "Season number must be at least 0 (for specials)"
  else
    let e1 := if e.watchStatus == .watched && e.watchedAt.isNone then
        { e with watchedAt := some now } else e
    let e2 := if e1.watchStatus != .watched && e1.watchedAt.isSome then
        { e1 with watchedAt := none } else e1
    .ok e2

/-! ### Consistency engine (Episode.ts lines 241-289) -/

/-- `episodes.filter(e => e.watchStatus === "watched").length`
(Episode.ts line 255). -/
def watchedEpisodesOf (eps : List Episode) : Nat :=
  (eps.filter (fun e => e.watchStatus == .watched)).length

/-- `episodes.filter(e => e.watchStatus === "skipped").length`
(Episode.ts line 256). -/
def skippedEpisodesOf (eps : List Episode) : Nat :=
  (eps.filter (fun e => e.watchStatus == .skipped)).length

/-- `totalWatchedEpisodes = watchedEpisodes + skippedEpisodes`
(Episode.ts line 257). -/
def totalWatchedEpisodesOf (eps : List Episode) : Nat :=
  watchedEpisodesOf eps + skippedEpisodesOf eps

/-- `episodes.filter(watched).reduce((sum, ep) => sum + (ep.runtime || 45), 0)`
(Episode.ts lines 260-262). -/
def totalWatchTimeOf (eps : List Episode) : Nat :=
  (eps.filter (fun e => e.watchStatus == .watched)).foldl
    (fun sum ep => sum + runtimeOr45 ep.runtime) 0

/-- The status chain of Episode.ts lines 276-282. -/
def classifyStatus (totalWatched totalEpisodes : Nat) : MediaStatus :=
  if totalWatched == 0 then .planned
  else if totalWatched == totalEpisodes then .completed
  else .watching

/-- `Media.findOne(...)` followed by mutation of the found document and
`save()`: only the first matching record is updated. -/
def updateFirstTV (ms : List Media) (userId tmdbId : Nat)
    (f : Media → Media) : List Media :=
  match ms with
  | [] => []
  | m :: rest =>
    if isTVFor m userId tmdbId then f m :: rest
    else m :: updateFirstTV rest userId tmdbId f

/-- `updateTVShowStats` (Episode.ts lines 241-289).  It loads the group's
episodes, no-ops when there are none, computes the stats, loads the TV show
via `findOne`, no-ops when it is absent, and otherwise mutates and saves it.
The code assigns the computed count and minutes to the document paths
`totalEpisodesWatched` and `totalWatchTime`; neither is a path of
`mediaSchema` (Media.ts lines 18-35, whose aggregate field is named
`watchTimeMinutes`), so under Mongoose strict mode (the default) those
assignments are dropped by `save()` and only the `watchStatus` assignment —
a schema path — persists. -/
def updateTVShowStats (st : Store) (userId tmdbId : Nat) : Store :=
  let episodes := episodesFor st.episodes userId tmdbId
  if episodes.length == 0 then st
  else
    let totalEpisodes := episodes.length
    let totalWatchedEpisodes := totalWatchedEpisodesOf episodes
    match st.media.find? (fun m => isTVFor m userId tmdbId) with
    | none => st
    | some _ =>
      { st with
        media := updateFirstTV st.media userId tmdbId (fun m =>
          { m with
            watchStatus := classifyStatus totalWatchedEpisodes totalEpisodes }) }

/-- The call-site try/catch around `updateTVShowStats`: both the post-save
hook (Episode.ts lines 229-238) and the internal catch (lines 286-288)
swallow any recomputation failure.  The only persistent write of the
recomputation is the final `tvShow.save()`, so a failure (modelled by the
`fails` oracle) leaves the store unchanged and is not rethrown. -/
def updateTVShowStatsCaught (fails : Bool) (st : Store)
    (userId tmdbId : Nat) : Store :=
  if fails then st else updateTVShowStats st userId tmdbId

/-! ### The episode write path -/

/-- Persisting a validated episode record: insert-or-replace at the unique
identity `(addedBy, tmdbId, seasonNumber, episodeNumber)` enforced by the
unique index of Episode.ts lines 59-64. -/
def sameIdentity (a b : Episode) : Bool :=
  a.addedBy == b.addedBy && a.tmdbId == b.tmdbId &&
  a.seasonNumber == b.seasonNumber && a.episodeNumber == b.episodeNumber

/-- Insert or replace by episode identity. -/
def writeEpisode (es : List Episode) (e : Episode) : List Episode :=
  if es.any (fun x => sameIdentity x e) then
    es.map (fun x => if sameIdentity x e then e else x)
  else
    es ++ [e]

/-- A full episode save: the pre-save hook validates and normalizes (a
validation failure aborts with no write), the record is persisted, and the
post-save hook (Episode.ts lines 229-238) recomputes the show's stats with
every failure caught and logged (`fails` is the failure oracle for that
recomputation). -/
def saveEpisode (fails : Bool) (st : Store) (e : Episode) (now : Nat) :
    Except String Store :=
  match episodePreSave e now with
  | .error msg => .error msg
  | .ok e1 =>
    let st1 : Store := { st with episodes := writeEpisode st.episodes e1 }
    .ok (updateTVShowStatsCaught fails st1 e1.addedBy e1.tmdbId)

/-! ### Bulk deletion statics (Episode.ts lines 71-87 and 144-163) -/

/-- `deleteByTmdbIdAndUser` (Episode.ts lines 71-87):
`deleteMany({ tmdbId, addedBy: userId })`, returning the deleted count and
the new store. -/
def deleteByTmdbIdAndUser (st : Store) (tmdbId userId : Nat) : Nat × Store :=
  let deleted := st.episodes.countP
    (fun e => e.tmdbId == tmdbId && e.addedBy == userId)
  (deleted,
    { st with episodes :=
        st.episodes.filter (fun e => !(e.tmdbId == tmdbId && e.addedBy == userId)) })

/-- `cleanupEpisodesForTVShow` (Episode.ts lines 144-163):
`deleteMany({ tmdbId, addedBy: userId })`, returning the deleted count and
the new store (it differs from `deleteByTmdbIdAndUser` only in logging). -/
def cleanupEpisodesForTVShow (st : Store) (tmdbId userId : Nat) : Nat × Store :=
  let deleted := st.episodes.countP
    (fun e => e.tmdbId == tmdbId && e.addedBy == userId)
  (deleted,
    { st with episodes :=
        st.episodes.filter (fun e => !(e.tmdbId == tmdbId && e.addedBy == userId)) })

/-! ### Orphan detection (Episode.ts lines 90-141) -/

/-- The `$group` stage keyed on `(addedBy, tmdbId)`: the distinct group keys
of the episode collection. -/
def groupKeys (es : List Episode) : List (Nat × Nat) :=
  (es.map epKey).dedup

/-- The `count: { $sum: 1 }` accumulator of a group. -/
def groupCount (es : List Episode) (k : Nat × Nat) : Nat :=
  es.countP (fun e => epKey e == k)

/-- An element of the result of `findOrphanedEpisodes`. -/
structure OrphanGroup where
  addedBy : Nat
  tmdbId : Nat
  count : Nat
deriving DecidableEq, Repr

/-- `findOrphanedEpisodes` (Episode.ts lines 90-141): group the episodes by
`(addedBy, tmdbId)` with counts, keep the groups for which no
`type: "tv"` media record exists.  The function only reads. -/
def findOrphanedEpisodes (st : Store) : List OrphanGroup :=
  ((groupKeys st.episodes).filter (fun k => !tvExists st.media k)).map
    (fun k => { addedBy := k.1, tmdbId := k.2, count := groupCount st.episodes k })

/-- `findOrphanedEpisodes` as a state transformer, to state that it mutates
nothing: it issues only an aggregation and `exists` queries. -/
def findOrphanedEpisodesOp (st : Store) : List OrphanGroup × Store :=
  (findOrphanedEpisodes st, st)

/-! ### Orphan reconciliation (Episode.ts lines 306-351) -/

/-- The loop of `cleanupAllOrphanedEpisodes`: for each group key, if no TV
show exists, `deleteMany` its episodes and accumulate the deleted count. -/
def cleanupLoop (ms : List Media) :
    List (Nat × Nat) → List Episode → Nat → Nat × List Episode
  | [], es, acc => (acc, es)
  | k :: ks, es, acc =>
    if tvExists ms k then cleanupLoop ms ks es acc
    else
      cleanupLoop ms ks (es.filter (fun e => !(epKey e == k)))
        (acc + es.countP (fun e => epKey e == k))

/-- `cleanupAllOrphanedEpisodes` (Episode.ts lines 306-351): aggregate the
episode groups, delete every group with no matching TV show, and return the
total number of deleted episodes. -/
def cleanupAllOrphanedEpisodes (st : Store) : Nat × Store :=
  let r := cleanupLoop st.media (groupKeys st.episodes) st.episodes 0
  (r.1, { st with episodes := r.2 })

/-- Error message standing for a rejected `deleteMany` promise. -/
def deleteFailedMsg : String := "deleteMany failed"

/-- The loop of `cleanupAllOrphanedEpisodes` with a failure oracle on
`deleteMany`.  The source wraps the WHOLE loop in one try/catch whose catch
logs and rethrows (Episode.ts lines 347-350); there is no per-group
try/catch, so the first failing group aborts the pass and the remaining
groups are not processed. -/
def cleanupLoopCaught (ms : List Media) (fails : Nat × Nat → Bool) :
    List (Nat × Nat) → List Episode → Nat → Except String (Nat × List Episode)
  | [], es, acc => .ok (acc, es)
  | k :: ks, es, acc =>
    if tvExists ms k then cleanupLoopCaught ms fails ks es acc
    else if fails k then .error deleteFailedMsg
    else
      cleanupLoopCaught ms fails ks (es.filter (fun e => !(epKey e == k)))
        (acc + es.countP (fun e => epKey e == k))

/-- `cleanupAllOrphanedEpisodes` under the `deleteMany` failure oracle. -/
def cleanupAllOrphanedEpisodesCaught (fails : Nat × Nat → Bool) (st : Store) :
    Except String (Nat × Store) :=
  (cleanupLoopCaught st.media fails (groupKeys st.episodes) st.episodes 0).map
    (fun r => (r.1, { st with episodes := r.2 }))

/-! ### Helper lemmas -/

/-- The recomputation never touches the episode collection: its only write is
the media `save()`. -/
theorem updateTVShowStats_episodes (st : Store) (u t : Nat) :
    (updateTVShowStats st u t).episodes = st.episodes := by
  unfold updateTVShowStats
  cases hf : st.media.find? (fun m => isTVFor m u t) <;>
    simp only [hf] <;> split <;> rfl

/-- The code's `watched.length + skipped.length` equals a single count of the
episodes whose state is watched or skipped. -/
theorem totalWatchedEpisodesOf_eq_countP (eps : List Episode) :
    totalWatchedEpisodesOf eps =
      eps.countP (fun e =>
        e.watchStatus == WatchStatus.watched ||
        e.watchStatus == WatchStatus.skipped) := by
  induction eps with
  | nil => rfl
  | cons e l ih =>
    unfold totalWatchedEpisodesOf watchedEpisodesOf skippedEpisodesOf at *
    cases hs : e.watchStatus <;>
      simp [List.filter_cons, List.countP_cons, hs, ih] <;> omega

/-- The code's `reduce((sum, ep) => sum + (ep.runtime || 45), 0)` over the
watched episodes equals the sum of the defaulted runtimes. -/
theorem totalWatchTimeOf_eq_sum (eps : List Episode) :
    totalWatchTimeOf eps =
      ((eps.filter (fun e => e.watchStatus == WatchStatus.watched)).map
        (fun e => runtimeOr45 e.runtime)).sum := by
  unfold totalWatchTimeOf
  generalize eps.filter (fun e => e.watchStatus == WatchStatus.watched) = l
  suffices h : ∀ acc : Nat,
      l.foldl (fun sum ep => sum + runtimeOr45 ep.runtime) acc =
        acc + (l.map (fun e => runtimeOr45 e.runtime)).sum by
    simpa using h 0
  induction l with
  | nil => simp
  | cons e l ih => intro acc; simp [ih]; omega

/-- `findOne` + mutate + `save` : after `updateFirstTV` with a key-preserving
mutation, `find?` returns the mutated first match. -/
theorem updateFirstTV_find? (ms : List Media) (u t : Nat) (f : Media → Media)
    (hf : ∀ m, isTVFor (f m) u t = isTVFor m u t) :
    ∀ m0, ms.find? (fun m => isTVFor m u t) = some m0 →
      (updateFirstTV ms u t f).find? (fun m => isTVFor m u t) = some (f m0) := by
  induction ms with
  | nil => intro m0 h; cases h
  | cons m rest ih =>
    intro m0 h
    by_cases hm : isTVFor m u t
    · rw [List.find?_cons_of_pos (p := fun m => isTVFor m u t) _ hm] at h
      cases h
      simp only [updateFirstTV]
      rw [if_pos hm]
      exact List.find?_cons_of_pos (p := fun m => isTVFor m u t) _
        (show isTVFor (f m) u t = true by rw [hf m]; exact hm)
    · rw [List.find?_cons_of_neg (p := fun m => isTVFor m u t) _ hm] at h
      simp only [updateFirstTV]
      rw [if_neg hm]
      rw [List.find?_cons_of_neg (p := fun m => isTVFor m u t) _ hm]
      exact ih m0 h

/-- Splitting a count over a pointwise-disjoint union of predicates. -/
theorem countP_add_split {α : Type} (p q r : α → Bool)
    (h : ∀ a, (if r a then (1 : Nat) else 0) =
      (if p a then 1 else 0) + (if q a then 1 else 0)) :
    ∀ l : List α, l.countP p + l.countP q = l.countP r := by
  intro l
  induction l with
  | nil => simp
  | cons a l ih =>
    rw [List.countP_cons, List.countP_cons, List.countP_cons]
    have ha := h a
    cases hp : p a <;> cases hq : q a <;> cases hr : r a <;>
      simp [hp, hq, hr] at ha ⊢ <;> omega

/-- Closed form of the reconciliation loop: on any key list it removes
exactly the episodes whose key is listed and has no TV show, and counts
them. -/
theorem cleanupLoop_characterization (ms : List Media) :
    ∀ (ks : List (Nat × Nat)) (es : List Episode) (acc : Nat),
      cleanupLoop ms ks es acc =
        (acc + es.countP (fun e =>
            decide (epKey e ∈ ks) && !tvExists ms (epKey e)),
         es.filter (fun e =>
            !(decide (epKey e ∈ ks) && !tvExists ms (epKey e)))) := by
  intro ks
  induction ks with
  | nil => intro es acc; simp [cleanupLoop, List.filter_eq_self.mpr]
  | cons k ks ih =>
    intro es acc
    by_cases htv : tvExists ms k
    · have hpred : ∀ e, (decide (epKey e ∈ k :: ks) &&
          !tvExists ms (epKey e)) = (decide (epKey e ∈ ks) &&
          !tvExists ms (epKey e)) := by
        intro e
        by_cases hk : epKey e = k
        · simp [hk, htv]
        · simp [List.mem_cons, hk]
      rw [show cleanupLoop ms (k :: ks) es acc = cleanupLoop ms ks es acc by
        simp [cleanupLoop, htv]]
      rw [ih es acc]
      simp only [hpred]
    · have hb : tvExists ms k = false := by simpa using htv
      rw [show cleanupLoop ms (k :: ks) es acc =
          cleanupLoop ms ks (es.filter (fun e => !(epKey e == k)))
            (acc + es.countP (fun e => epKey e == k)) by
        simp [cleanupLoop, hb]]
      rw [ih]
      simp only [Prod.mk.injEq]
      constructor
      · rw [List.countP_filter]
        have hsplit := countP_add_split
          (fun e => epKey e == k)
          (fun e => (decide (epKey e ∈ ks) && !tvExists ms (epKey e)) &&
            !(epKey e == k))
          (fun e => decide (epKey e ∈ k :: ks) && !tvExists ms (epKey e))
          (fun e => by
            by_cases hk : epKey e = k
            · simp [hk, hb]
            · simp [List.mem_cons, hk])
          es
        omega
      · rw [List.filter_filter]
        refine List.filter_congr ?_
        intro e _
        by_cases hk : epKey e = k
        · simp [hk, hb]
        · simp [List.mem_cons, hk]

/-- `cleanupAllOrphanedEpisodes` in closed form: the surviving episodes are
exactly those whose `(addedBy, tmdbId)` group has a TV show, the returned
total is the number of episodes in groups without one, and the media
collection is untouched. -/
theorem cleanupAllOrphanedEpisodes_closed (st : Store) :
    cleanupAllOrphanedEpisodes st =
      (st.episodes.countP (fun e => !tvExists st.media (epKey e)),
       { st with episodes :=
          st.episodes.filter (fun e => tvExists st.media (epKey e)) }) := by
  unfold cleanupAllOrphanedEpisodes
  rw [cleanupLoop_characterization]
  have hmem : ∀ e ∈ st.episodes, decide (epKey e ∈ groupKeys st.episodes) = true := by
    intro e he
    simp only [groupKeys, List.mem_dedup, decide_eq_true_eq]
    exact List.mem_map.mpr ⟨e, he, rfl⟩
  simp only [Prod.mk.injEq]
  constructor
  · rw [Nat.zero_add]
    refine List.countP_congr ?_
    intro e he
    simp [hmem e he]
  · simp only [Store.mk.injEq, and_true]
    refine List.filter_congr ?_
    intro e he
    simp [hmem e he]

/-! ### Claim theorems -/

/-- C10: `deleteByTmdbIdAndUser` and `cleanupEpisodesForTVShow` issue the same
`deleteMany({ tmdbId, addedBy })` and return the same deleted count on every
store state: the two bulk deletions are equivalent. -/
theorem deleteByTmdbIdAndUser_eq_cleanup :
    ∀ (st : Store) (tmdbId userId : Nat),
      deleteByTmdbIdAndUser st tmdbId userId =
        cleanupEpisodesForTVShow st tmdbId userId := by
  intro st tmdbId userId
  rfl

/-- C3: after every successful write (the pre-save hook runs on every save,
including saves following `markAsWatched`/`markAsUnwatched`/`markAsSkipped`),
`watchedAt` is set iff the watch state is `watched`; and the three instance
methods themselves already establish the invariant on the in-memory record. -/
theorem episode_watchedAt_invariant :
    ∀ (e : Episode) (now : Nat),
      (∀ e1, episodePreSave e now = .ok e1 →
        (e1.watchedAt.isSome ↔ e1.watchStatus = .watched)) ∧
      ((markAsWatched e now).watchedAt.isSome ↔
        (markAsWatched e now).watchStatus = .watched) ∧
      ((markAsUnwatched e).watchedAt.isSome ↔
        (markAsUnwatched e).watchStatus = .watched) ∧
      ((markAsSkipped e).watchedAt.isSome ↔
        (markAsSkipped e).watchStatus = .watched) := by
  intro e now
  refine ⟨?_, by simp [markAsWatched], by simp [markAsUnwatched],
    by simp [markAsSkipped]⟩
  intro e1 h
  unfold episodePreSave at h
  split at h
  · cases h
  split at h
  · cases h
  cases hs : e.watchStatus <;> cases hw : e.watchedAt <;>
    simp [hs, hw] at h <;> simp [← h, hs, hw]

/-- C3 witness: a concrete watched episode with `watchedAt` unset passes the
hook and comes out with `watchedAt` set. -/
theorem episode_watchedAt_invariant_witness :
    ∃ e1, episodePreSave
        { tmdbId := 10, seasonNumber := 1, episodeNumber := 1,
          episodeTitle := "Pilot", airDate := none, overview := none,
          runtime := 30, addedBy := 1, watchStatus := .watched,
          watchedAt := none, rating := none } 5 = .ok e1 ∧
      (e1.watchedAt.isSome ↔ e1.watchStatus = .watched) := by
  refine ⟨_, rfl, ?_⟩
  exact (episode_watchedAt_invariant
    { tmdbId := 10, seasonNumber := 1, episodeNumber := 1,
      episodeTitle := "Pilot", airDate := none, overview := none,
      runtime := 30, addedBy := 1, watchStatus := .watched,
      watchedAt := none, rating := none } 5).1 _ rfl

/-- C4: an episode write whose `seasonNumber` is negative or whose
`episodeNumber` is below 1 fails with the hook's validation error; the save is
aborted before any mutation, so no store is produced and nothing is created
or updated. -/
theorem saveEpisode_rejects_invalid :
    ∀ (fails : Bool) (st : Store) (e : Episode) (now : Nat),
      e.seasonNumber < 0 ∨ e.episodeNumber < 1 →
      ∃ msg, saveEpisode fails st e now = .error msg := by
  intro fails st e now h
  unfold saveEpisode episodePreSave
  by_cases h1 : e.episodeNumber < 1
  · exact ⟨"Episode number must be at least 1", by simp [h1]⟩
  · have h2 : e.seasonNumber < 0 := h.resolve_right h1
    exact ⟨"Season number must be at least 0 (for specials)", by simp [h1, h2]⟩

/-- C4 witness: a concrete upsert with `episodeNumber = 0` is rejected. -/
theorem saveEpisode_rejects_invalid_witness :
    ∃ msg, saveEpisode false { episodes := [], media := [] }
        { tmdbId := 10, seasonNumber := 1, episodeNumber := 0,
          episodeTitle := "Pilot", airDate := none, overview := none,
          runtime := 30, addedBy := 1, watchStatus := .unwatched,
          watchedAt := none, rating := none } 5 = .error msg :=
  saveEpisode_rejects_invalid false { episodes := [], media := [] }
    { tmdbId := 10, seasonNumber := 1, episodeNumber := 0,
      episodeTitle := "Pilot", airDate := none, overview := none,
      runtime := 30, addedBy := 1, watchStatus := .unwatched,
      watchedAt := none, rating := none } 5 (Or.inr (by decide))

/-- C5: the outcome of an episode write does not depend on whether the
triggered recomputation fails: the write succeeds (or fails validation)
identically under both oracles, and the persisted episode collection is the
same — the recomputation failure is swallowed by the catch blocks and never
surfaced. -/
theorem saveEpisode_recompute_isolated :
    ∀ (fails : Bool) (st : Store) (e : Episode) (now : Nat),
      (saveEpisode fails st e now).isOk = (episodePreSave e now).isOk ∧
      Except.map Store.episodes (saveEpisode fails st e now) =
        Except.map Store.episodes (saveEpisode false st e now) := by
  intro fails st e now
  unfold saveEpisode
  cases hp : episodePreSave e now with
  | error msg => simp [hp, Except.isOk, Except.toBool]
  | ok e1 =>
    refine ⟨by simp [hp, Except.isOk, Except.toBool], ?_⟩
    simp only [Except.map]
    cases fails <;>
      simp [updateTVShowStatsCaught, updateTVShowStats_episodes]

/-- C9: recomputation is a no-op on the whole persisted state when the show
has no episode records (the aggregate, if any, is not zeroed out), and also
when no `type: "tv"` media record exists for `(owner, showId)` (nothing is
created or updated). -/
theorem updateTVShowStats_frame :
    ∀ (st : Store) (userId tmdbId : Nat),
      (episodesFor st.episodes userId tmdbId = [] →
        updateTVShowStats st userId tmdbId = st) ∧
      (st.media.find? (fun m => isTVFor m userId tmdbId) = none →
        updateTVShowStats st userId tmdbId = st) := by
  intro st u t
  constructor
  · intro h
    unfold updateTVShowStats
    simp [h]
  · intro h
    unfold updateTVShowStats
    simp only [h]
    split <;> rfl

/-- C9 witness: on a concrete store holding an aggregate for show 10 with no
episodes, and a store holding episodes of show 20 with no aggregate,
recomputation changes nothing. -/
theorem updateTVShowStats_frame_witness :
    updateTVShowStats
        { episodes := [],
          media := [{ tmdbId := 10, title := "X", type := .tv, addedBy := 1,
                      watchStatus := .planned, rating := none,
                      watchTimeMinutes := 0 }] } 1 10 =
      { episodes := [],
        media := [{ tmdbId := 10, title := "X", type := .tv, addedBy := 1,
                    watchStatus := .planned, rating := none,
                    watchTimeMinutes := 0 }] } ∧
    updateTVShowStats
        { episodes := [{ tmdbId := 20, seasonNumber := 1, episodeNumber := 1,
                         episodeTitle := "Pilot", airDate := none,
                         overview := none, runtime := 30, addedBy := 1,
                         watchStatus := .watched, watchedAt := some 5,
                         rating := none }],
          media := [] } 1 20 =
      { episodes := [{ tmdbId := 20, seasonNumber := 1, episodeNumber := 1,
                       episodeTitle := "Pilot", airDate := none,
                       overview := none, runtime := 30, addedBy := 1,
                       watchStatus := .watched, watchedAt := some 5,
                       rating := none }],
        media := [] } := by
  constructor
  · exact (updateTVShowStats_frame
      { episodes := [],
        media := [{ tmdbId := 10, title := "X", type := .tv, addedBy := 1,
                    watchStatus := .planned, rating := none,
                    watchTimeMinutes := 0 }] } 1 10).1 rfl
  · exact (updateTVShowStats_frame
      { episodes := [{ tmdbId := 20, seasonNumber := 1, episodeNumber := 1,
                       episodeTitle := "Pilot", airDate := none,
                       overview := none, runtime := 30, addedBy := 1,
                       watchStatus := .watched, watchedAt := some 5,
                       rating := none }],
        media := [] } 1 20).2 rfl

/-- C2: for a non-empty episode set whose show aggregate exists,
recomputation persists the status `planned` when the watched-plus-skipped
count is 0, `completed` when it equals the number of episodes, and otherwise
the in-progress status (named `"watching"` in the code's enum). -/
theorem updateTVShowStats_status :
    ∀ (st : Store) (u t : Nat) (m0 : Media),
      episodesFor st.episodes u t ≠ [] →
      st.media.find? (fun m => isTVFor m u t) = some m0 →
      (updateTVShowStats st u t).media.find? (fun m => isTVFor m u t) =
        some { m0 with watchStatus :=
          if (episodesFor st.episodes u t).countP (fun e =>
              e.watchStatus == WatchStatus.watched ||
              e.watchStatus == WatchStatus.skipped) = 0 then
            MediaStatus.planned
          else if (episodesFor st.episodes u t).countP (fun e =>
              e.watchStatus == WatchStatus.watched ||
              e.watchStatus == WatchStatus.skipped) =
              (episodesFor st.episodes u t).length then
            MediaStatus.completed
          else MediaStatus.watching } := by
  intro st u t m0 hne hfind
  have hlen : ((episodesFor st.episodes u t).length == 0) = false := by
    simp [List.length_eq_zero, hne]
  unfold updateTVShowStats
  simp only [hlen, Bool.false_eq_true, if_false, hfind]
  have hupd := updateFirstTV_find? st.media u t
    (fun m => { m with watchStatus := classifyStatus (totalWatchedEpisodesOf (episodesFor st.episodes u t)) (episodesFor st.episodes u t).length })
    (fun m => rfl) m0 hfind
  rw [hupd]
  rw [classifyStatus, totalWatchedEpisodesOf_eq_countP]
  simp only [beq_iff_eq]

/-- C2 witness: a show with one watched and one unwatched episode and an
existing aggregate is classified as in-progress. -/
theorem updateTVShowStats_status_witness :
    ∃ m1, (updateTVShowStats
        { episodes :=
            [{ tmdbId := 10, seasonNumber := 1, episodeNumber := 1,
               episodeTitle := "Pilot", airDate := none, overview := none,
               runtime := 30, addedBy := 1, watchStatus := .watched,
               watchedAt := some 5, rating := none },
             { tmdbId := 10, seasonNumber := 1, episodeNumber := 2,
               episodeTitle := "Two", airDate := none, overview := none,
               runtime := 40, addedBy := 1, watchStatus := .unwatched,
               watchedAt := none, rating := none }],
          media := [{ tmdbId := 10, title := "X", type := .tv, addedBy := 1,
                      watchStatus := .planned, rating := none,
                      watchTimeMinutes := 0 }] } 1 10).media.find?
        (fun m => isTVFor m 1 10) = some m1 ∧
      m1.watchStatus = MediaStatus.watching := by
  refine ⟨_, updateTVShowStats_status
    { episodes :=
        [{ tmdbId := 10, seasonNumber := 1, episodeNumber := 1,
           episodeTitle := "Pilot", airDate := none, overview := none,
           runtime := 30, addedBy := 1, watchStatus := .watched,
           watchedAt := some 5, rating := none },
         { tmdbId := 10, seasonNumber := 1, episodeNumber := 2,
           episodeTitle := "Two", airDate := none, overview := none,
           runtime := 40, addedBy := 1, watchStatus := .unwatched,
           watchedAt := none, rating := none }],
      media := [{ tmdbId := 10, title := "X", type := .tv, addedBy := 1,
                  watchStatus := .planned, rating := none,
                  watchTimeMinutes := 0 }] } 1 10
    { tmdbId := 10, title := "X", type := .tv, addedBy := 1,
      watchStatus := .planned, rating := none, watchTimeMinutes := 0 }
    (by decide) rfl, ?_⟩
  decide

/-- Concrete state showing the dropped aggregate write: user 1, show 10, one
watched episode of 30 minutes, and an existing `type: "tv"` aggregate whose
`watchTimeMinutes` is 0. -/
def statsBugStore : Store :=
  { episodes := [{ tmdbId := 10, seasonNumber := 1, episodeNumber := 1,
                   episodeTitle := "Pilot", airDate := none, overview := none,
                   runtime := 30, addedBy := 1, watchStatus := .watched,
                   watchedAt := some 5, rating := none }],
    media := [{ tmdbId := 10, title := "X", type := .tv, addedBy := 1,
                watchStatus := .planned, rating := none,
                watchTimeMinutes := 0 }] }

/-- C1: the recomputation COMPUTES exactly the values the claim describes —
watched-plus-skipped count and watched-only defaulted-runtime sum — but the
persisted aggregate never receives them: the assignments go to the paths
`totalEpisodesWatched`/`totalWatchTime`, which `mediaSchema` does not declare
(its field is `watchTimeMinutes`, and it has no episode-count field), so the
save persists only the status.  At the concrete state the recomputation runs
to completion (the status is updated to completed), yet `watchTimeMinutes`
remains 0 while the watched runtime sum is 30 and the watched-plus-skipped
count is 1. -/
theorem updateTVShowStats_aggregate_dropped :
    (∀ eps : List Episode,
      totalWatchedEpisodesOf eps =
        eps.countP (fun e =>
          e.watchStatus == WatchStatus.watched ||
          e.watchStatus == WatchStatus.skipped) ∧
      totalWatchTimeOf eps =
        ((eps.filter (fun e => e.watchStatus == WatchStatus.watched)).map
          (fun e => runtimeOr45 e.runtime)).sum) ∧
    totalWatchedEpisodesOf (episodesFor statsBugStore.episodes 1 10) = 1 ∧
    totalWatchTimeOf (episodesFor statsBugStore.episodes 1 10) = 30 ∧
    (updateTVShowStats statsBugStore 1 10).media.map Media.watchStatus =
      [MediaStatus.completed] ∧
    (updateTVShowStats statsBugStore 1 10).media.map Media.watchTimeMinutes =
      [0] :=
  ⟨fun eps => ⟨totalWatchedEpisodesOf_eq_countP eps, totalWatchTimeOf_eq_sum eps⟩,
    by decide, by decide, by decide, by decide⟩

/-- C6: a `(owner, showId)` group appears in the result of
`findOrphanedEpisodes` iff the group has at least one episode and no
`type: "tv"` media record exists for it; every returned group carries its
episode count; and the operation leaves the store unchanged. -/
theorem findOrphanedEpisodes_spec :
    ∀ (st : Store) (u t : Nat),
      ((∃ g ∈ (findOrphanedEpisodesOp st).1, g.addedBy = u ∧ g.tmdbId = t) ↔
        ((∃ e ∈ st.episodes, e.addedBy = u ∧ e.tmdbId = t) ∧
          tvExists st.media (u, t) = false)) ∧
      (∀ g ∈ (findOrphanedEpisodesOp st).1,
        g.count = st.episodes.countP (fun e =>
          e.addedBy == g.addedBy && e.tmdbId == g.tmdbId)) ∧
      (findOrphanedEpisodesOp st).2 = st := by
  intro st u t
  refine ⟨?_, ?_, rfl⟩
  · constructor
    · rintro ⟨g, hg, hu, ht⟩
      simp only [findOrphanedEpisodesOp, findOrphanedEpisodes, List.mem_map,
        List.mem_filter, groupKeys, List.mem_dedup] at hg
      obtain ⟨k, ⟨hkmem, horph⟩, hmk⟩ := hg
      obtain ⟨e, he, hek⟩ := hkmem
      have hk : k = (u, t) := by
        cases hmk
        simp only [← hu, ← ht]
      subst hk
      refine ⟨⟨e, he, ?_, ?_⟩, by simpa using horph⟩
      · have := congrArg Prod.fst hek
        simpa [epKey] using this
      · have := congrArg Prod.snd hek
        simpa [epKey] using this
    · rintro ⟨⟨e, he, heu, het⟩, htv⟩
      refine ⟨{ addedBy := u, tmdbId := t,
                count := groupCount st.episodes (u, t) }, ?_, rfl, rfl⟩
      simp only [findOrphanedEpisodesOp, findOrphanedEpisodes, List.mem_map,
        List.mem_filter, groupKeys, List.mem_dedup]
      refine ⟨(u, t), ⟨⟨e, he, ?_⟩, by simp [htv]⟩, rfl⟩
      simp [epKey, heu, het]
  · intro g hg
    simp only [findOrphanedEpisodesOp, findOrphanedEpisodes, List.mem_map,
      List.mem_filter, groupKeys, List.mem_dedup] at hg
    obtain ⟨k, ⟨hkmem, horph⟩, hmk⟩ := hg
    cases hmk
    simp only [groupCount]
    refine List.countP_congr ?_
    intro e he
    cases k with
    | mk a b => simp [epKey, Prod.ext_iff]

/-- C6 witness: on a concrete store with one episode of show 20 for user 1
and no media records, the group is reported as orphaned. -/
theorem findOrphanedEpisodes_spec_witness :
    ∃ g ∈ (findOrphanedEpisodesOp
        { episodes := [{ tmdbId := 20, seasonNumber := 1, episodeNumber := 1,
                         episodeTitle := "Pilot", airDate := none,
                         overview := none, runtime := 30, addedBy := 1,
                         watchStatus := .unwatched, watchedAt := none,
                         rating := none }],
          media := [] }).1, g.addedBy = 1 ∧ g.tmdbId = 20 := by
  exact (findOrphanedEpisodes_spec
    { episodes := [{ tmdbId := 20, seasonNumber := 1, episodeNumber := 1,
                     episodeTitle := "Pilot", airDate := none,
                     overview := none, runtime := 30, addedBy := 1,
                     watchStatus := .unwatched, watchedAt := none,
                     rating := none }],
      media := [] } 1 20).1.mpr (by decide)

/-- C7: `cleanupAllOrphanedEpisodes` deletes exactly the episodes of groups
with no TV-show aggregate (the media collection is untouched), returns the
number of episodes so deleted, and a second run on the resulting state
deletes zero episodes and changes nothing (idempotence). -/
theorem cleanupAllOrphanedEpisodes_spec :
    ∀ st : Store,
      cleanupAllOrphanedEpisodes st =
        (st.episodes.countP (fun e => !tvExists st.media (epKey e)),
         { st with episodes :=
            st.episodes.filter (fun e => tvExists st.media (epKey e)) }) ∧
      cleanupAllOrphanedEpisodes ((cleanupAllOrphanedEpisodes st).2) =
        (0, (cleanupAllOrphanedEpisodes st).2) := by
  intro st
  refine ⟨cleanupAllOrphanedEpisodes_closed st, ?_⟩
  rw [cleanupAllOrphanedEpisodes_closed st]
  rw [cleanupAllOrphanedEpisodes_closed]
  simp only [List.countP_filter, List.filter_filter]
  simp [Bool.and_comm]

/-- State with two orphaned groups — user 1 has episodes of shows 20 and 30
and a TV aggregate only for show 10. -/
def orphanFailStore : Store :=
  { episodes := [{ tmdbId := 20, seasonNumber := 1, episodeNumber := 1,
                   episodeTitle := "A", airDate := none, overview := none,
                   runtime := 30, addedBy := 1, watchStatus := .unwatched,
                   watchedAt := none, rating := none },
                 { tmdbId := 30, seasonNumber := 1, episodeNumber := 1,
                   episodeTitle := "B", airDate := none, overview := none,
                   runtime := 30, addedBy := 1, watchStatus := .unwatched,
                   watchedAt := none, rating := none }],
    media := [{ tmdbId := 10, title := "X", type := .tv, addedBy := 1,
                watchStatus := .planned, rating := none,
                watchTimeMinutes := 0 }] }

/-- Failure oracle: `deleteMany` fails for group `(1, 20)` only. -/
def failFirstGroup : Nat × Nat → Bool := fun k => k == (1, 20)

/-- C8 counterexample: with two orphaned groups `(1,20)` and `(1,30)`, a
`deleteMany` failure on the first group makes the whole pass abort with the
rethrown error — group `(1,30)` is NOT processed, although the second
conjunct shows that without the failure the same pass would have deleted
both groups (2 episodes). -/
theorem cleanup_per_group_isolation_cex :
    cleanupAllOrphanedEpisodesCaught failFirstGroup orphanFailStore =
      .error deleteFailedMsg ∧
    cleanupAllOrphanedEpisodesCaught (fun _ => false) orphanFailStore =
      .ok (2, { orphanFailStore with episodes := [] }) := by
  constructor <;> rfl

/-- C8 amended: the source wraps the whole reconciliation loop in a single
try/catch whose handler logs and rethrows, so a failure while deleting one
orphaned group's episodes aborts the pass: the error propagates to the
caller and the groups queued after the failing one are not processed. -/
theorem cleanupLoopCaught_aborts_on_failure :
    ∀ (ms : List Media) (f : Nat × Nat → Bool) (k : Nat × Nat)
      (ks : List (Nat × Nat)) (es : List Episode) (acc : Nat),
      tvExists ms k = false → f k = true →
      cleanupLoopCaught ms f (k :: ks) es acc = .error deleteFailedMsg := by
  intro ms f k ks es acc h1 h2
  simp [cleanupLoopCaught, h1, h2]

/-- C8 amended witness: a concrete orphaned group whose delete fails aborts
the loop at once. -/
theorem cleanupLoopCaught_aborts_on_failure_witness :
    cleanupLoopCaught [] (fun _ => true) [(1, 20)] [] 0 =
      .error deleteFailedMsg :=
  cleanupLoopCaught_aborts_on_failure [] (fun _ => true) (1, 20) [] [] 0
    rfl rfl

end Cinetime

